import Mathlib

/-!
Verification of the HTML signal-extraction and scoring engine of the
SEO checkup tool (src/pages/SeoCheckup.tsx).  The JavaScript/TypeScript
source is shallowly embedded: strings become `List Char`, regular
expression matching is implemented directly with the backtracking
behaviour of the concrete patterns used in the source, thrown
exceptions become `Option`, and the IEEE double arithmetic of the
scorer is modelled with exact rationals, with `NaN` (which arises from
the 0/0 division when the result list is empty) modelled as `none`.
-/

/-- Character set of the JavaScript regular expression class backslash-s
(whitespace), also the set stripped by String.prototype.trim. -/
def isWs (c : Char) : Bool :=
  let n := c.toNat
  n == 32 || (9 ≤ n && n ≤ 13) || n == 0xa0 || n == 0x1680 ||
  (0x2000 ≤ n && n ≤ 0x200a) || n == 0x2028 || n == 0x2029 ||
  n == 0x202f || n == 0x205f || n == 0x3000 || n == 0xfeff

/-- JavaScript line terminators, which the dot of a regular expression
without the s flag does not match. -/
def isLineTerm (c : Char) : Bool :=
  let n := c.toNat
  n == 10 || n == 13 || n == 0x2028 || n == 0x2029

/-- Double quotation mark character. -/
def quoteD : Char := Char.ofNat 34

/-- Single quotation mark (apostrophe) character. -/
def quoteS : Char := Char.ofNat 39

/-- Membership in the regular expression character class of the two
quote characters. -/
def isQuote (c : Char) : Bool := c == quoteD || c == quoteS

/-- String.prototype.trim of JavaScript on the character list. -/
def jsTrim (l : List Char) : List Char :=
  ((l.dropWhile isWs).reverse.dropWhile isWs).reverse

/-- One row of the report, mirroring the TypeScript record type
SeoResult (lines 13-18 of SeoCheckup.tsx).  The value field, which in
the source is a string or a React node, is modelled by the text it
displays; the category field, optional in the source, is modelled as a
plain string because every constructed row sets it. -/
structure SeoResult where
  label : String
  value : String
  ok : Bool
  category : String
deriving DecidableEq, Repr

/-- The aggregate score record, mirroring the TypeScript type SeoScore
(lines 20-24).  The percentage is an IEEE double in the source; it is
modelled as an optional integer, where `none` stands for `NaN`, the
value produced by `Math.round(0/0 * 100)`. -/
structure SeoScore where
  score : Nat
  total : Nat
  percentage : Option Int
deriving DecidableEq, Repr

/-- Math.round of JavaScript on a finite value: the nearest integer,
ties rounded toward positive infinity. -/
def jsRound (q : ℚ) : Int := ⌊q + 1/2⌋

/-- Scoring of a result list, mirroring lines 297-300 of
SeoCheckup.tsx: passedChecks and totalChecks are filter counts over the
non-Details rows, and the percentage is Math.round((passed/total)*100).
The source performs the division unconditionally; when totalChecks is 0
the double division 0/0 yields NaN, modelled here by `none`. -/
def computeScore (results : List SeoResult) : SeoScore :=
  let passedChecks := (results.filter (fun r => r.ok && r.category != "Details")).length
  let totalChecks := (results.filter (fun r => r.category != "Details")).length
  { score := passedChecks, total := totalChecks,
    percentage :=
      if totalChecks = 0 then none
      else some (jsRound (((passedChecks : ℚ) / (totalChecks : ℚ)) * 100)) }

/-- A sample passing non-Details row, used as a concrete input. -/
def resBasicPass : SeoResult :=
  { label := "HTTPS Usage", value := "Ya", ok := true, category := "Basic" }

/-- C1 counterexample: on the empty result list the scorer computes
Math.round((0/0)*100), which is NaN (modelled as `none`), so the
reported percentage is not 0 as the claim states. -/
theorem scorer_empty_percentage_is_nan :
    (computeScore []).percentage = none ∧ (computeScore []).percentage ≠ some 0 := by
  decide

/-- C1 (amended): for every result list the scorer returns score = the
count of rows with a true outcome outside category Details, total = the
count of rows outside category Details, and, when total is nonzero,
percentage = round(100 * score / total); when total is 0 the unguarded
0/0 division produces NaN (modelled `none`), not 0. -/
theorem scorer_counts_and_percentage (rs : List SeoResult) :
    (computeScore rs).score = rs.countP (fun r => r.ok && r.category != "Details")
    ∧ (computeScore rs).total = rs.countP (fun r => r.category != "Details")
    ∧ ((computeScore rs).total = 0 → (computeScore rs).percentage = none)
    ∧ ((computeScore rs).total ≠ 0 →
        (computeScore rs).percentage =
          some (jsRound ((((computeScore rs).score : ℚ) / ((computeScore rs).total : ℚ)) * 100))) := by
  refine ⟨?_, ?_, ?_, ?_⟩
  · simp [computeScore, List.countP_eq_length_filter]
  · simp [computeScore, List.countP_eq_length_filter]
  · intro h
    simp only [computeScore] at h ⊢
    simp [h]
  · intro h
    simp only [computeScore] at h ⊢
    simp [h]

/-- Witness for the amended C1 theorem at a concrete one-row list. -/
theorem scorer_counts_and_percentage_witness :
    (computeScore [resBasicPass]).total ≠ 0
    ∧ (computeScore [resBasicPass]).percentage =
        some (jsRound ((((computeScore [resBasicPass]).score : ℚ) /
          ((computeScore [resBasicPass]).total : ℚ)) * 100)) :=
  ⟨by decide, (scorer_counts_and_percentage [resBasicPass]).2.2.2 (by decide)⟩

/-- Case comparison of one pattern character with one text character,
as performed by a JavaScript regular expression with the i flag on the
ASCII patterns of this source. -/
def charCI (a b : Char) : Bool := a.toLower == b.toLower

/-- Case-insensitive prefix test of a pattern against the text. -/
def startsCI : List Char → List Char → Bool
  | [], _ => true
  | _ :: _, [] => false
  | p :: ps, c :: cs => charCI p c && startsCI ps cs

/-- Consume a case-insensitive literal pattern, returning the rest of
the text, or fail. -/
def eatCI (pat l : List Char) : Option (List Char) :=
  if startsCI pat l then some (List.drop pat.length l) else none

/-- Consume one character of the quote class, the regular expression
character class of double or single quote. -/
def eatQuote : List Char → Option (List Char)
  | c :: cs => if isQuote c then some cs else none
  | [] => none

/-- Length of the leading whitespace run. -/
def countWs : List Char → Nat
  | [] => 0
  | c :: cs => if isWs c then countWs cs + 1 else 0

/-- Consume backslash-s-plus: at least one whitespace character,
greedily.  The patterns of the source always follow this with a
non-whitespace literal, so the greedy run is the only viable one. -/
def eatWs1 (l : List Char) : Option (List Char) :=
  if countWs l == 0 then none else some (List.drop (countWs l) l)

/-- Index of the first character satisfying the predicate. -/
def firstIdxWhere (p : Char → Bool) : List Char → Option Nat
  | [] => none
  | c :: cs => if p c then some 0 else (firstIdxWhere p cs).map (· + 1)

/-- Consume the pattern piece matching any run of non-greater-than
characters followed by a literal greater-than: deterministic, since the
run cannot cross the closing character. -/
def gtRun (l : List Char) : Option (List Char) :=
  (firstIdxWhere (fun c => c == '>') l).map (fun m => List.drop (m + 1) l)

/-- Consume the pattern piece matching any run of non-quote characters
followed by one quote-class character: deterministic for the same
reason. -/
def quoteRun (l : List Char) : Option (List Char) :=
  (firstIdxWhere isQuote l).map (fun j => List.drop (j + 1) l)

/-- Largest number of characters the greedy non-greater-than run can
consume at this position. -/
def gtBound (l : List Char) : Nat :=
  match firstIdxWhere (fun c => c == '>') l with
  | some g => g
  | none => l.length

/-- Backtracking loop of a greedy non-greater-than run followed by the
continuation: the run length is tried from k downward, exactly the
order a JavaScript regular expression engine backtracks a greedy star. -/
def tryGapAux (next : List Char → Option (List Char)) (r : List Char) : Nat → Option (List Char)
  | 0 => next r
  | k + 1 =>
    match next (List.drop (k + 1) r) with
    | some res => some res
    | none => tryGapAux next r k

/-- Greedy non-greater-than gap followed by the continuation, with
backtracking. -/
def gapGtTry (next : List Char → Option (List Char)) (r : List Char) : Option (List Char) :=
  tryGapAux next r (gtBound r)

/-- Lazy dot-star followed by a closing pattern: consume the fewest
non-line-terminator characters after which the closer matches.  Returns
the length of the consumed content and the length of the closer.  The
dot of a JavaScript regular expression without the s flag does not
match line terminators, so hitting one fails. -/
def lazyScanLen (closer : List Char → Option Nat) : List Char → Option (Nat × Nat)
  | [] => (closer []).map (fun n => (0, n))
  | c :: cs =>
    match closer (c :: cs) with
    | some n => some (0, n)
    | none =>
      if isLineTerm c then none
      else (lazyScanLen closer cs).map (fun p => (p.1 + 1, p.2))

/-- Worker of the global match loop: the first argument counts
characters still to skip past the previous match, after which the
matcher is tried at each position, emitting the matched text and
resuming after it (or advancing one character past an empty match),
exactly as String.prototype.match with the g flag. -/
def globalAux (tryAt : List Char → Option Nat) : Nat → List Char → List (List Char)
  | _, [] => []
  | j + 1, _ :: cs => globalAux tryAt j cs
  | 0, c :: cs =>
    match tryAt (c :: cs) with
    | some n => List.take n (c :: cs) :: globalAux tryAt (n - 1) cs
    | none => globalAux tryAt 0 cs

/-- All matches of the pattern over the text, leftmost first,
non-overlapping, as String.prototype.match with the g flag (with the
convention that a failing match list is the empty list, as the source
writes match(...) or-else the empty array). -/
def globalMatches (tryAt : List Char → Option Nat) (l : List Char) : List (List Char) :=
  globalAux tryAt 0 l

/-- First match of a pattern returning a payload, leftmost position
first, as String.prototype.match without the g flag. -/
def firstCapture {α : Type} (tryAt : List Char → Option α) : List Char → Option α
  | [] => tryAt []
  | c :: cs =>
    match tryAt (c :: cs) with
    | some r => some r
    | none => firstCapture tryAt cs

/-- Case-sensitive substring test, as String.prototype.includes. -/
def containsSub (needle : List Char) : List Char → Bool
  | [] => needle.isEmpty
  | c :: cs => List.isPrefixOf needle (c :: cs) || containsSub needle cs

/-- Literal piece of the image tag pattern. -/
def litImg : List Char := "<img".data

/-- Literal piece of the anchor tag pattern. -/
def litAOpen : List Char := "<a".data

/-- Literal piece href= of the anchor tag pattern. -/
def litHrefEq : List Char := "href=".data

/-- Literal piece of the meta tag patterns. -/
def litMetaOpen : List Char := "<meta".data

/-- Literal attribute piece name= of the meta tag patterns. -/
def litNameEq : List Char := "name=".data

/-- Literal attribute piece property= of the Open Graph pattern. -/
def litPropertyEq : List Char := "property=".data

/-- Literal value piece of the Open Graph pattern. -/
def litOgColon : List Char := "og:".data

/-- Literal value piece of the Twitter Card pattern. -/
def litTwitterColon : List Char := "twitter:".data

/-- Literal piece of the canonical link pattern. -/
def litLinkOpen : List Char := "<link".data

/-- Literal attribute piece rel= of the canonical link pattern. -/
def litRelEq : List Char := "rel=".data

/-- Literal value piece of the canonical link pattern. -/
def litCanonical : List Char := "canonical".data

/-- Literal value piece of the meta description pattern. -/
def litDescription : List Char := "description".data

/-- Literal value piece of the meta keywords pattern. -/
def litKeywords : List Char := "keywords".data

/-- Literal value piece of the viewport pattern. -/
def litViewport : List Char := "viewport".data

/-- Literal attribute piece content= of the meta patterns. -/
def litContentEq : List Char := "content=".data

/-- Literal opening piece of the title pattern. -/
def litTitleOpen : List Char := "<title>".data

/-- Literal closing piece of the title pattern. -/
def litTitleClose : List Char := "</title>".data

/-- Literal opening piece of the heading pattern. -/
def litHOpen : List Char := "<h".data

/-- Substring tested by the external link classifier. -/
def litHttp : List Char := "http".data

/-- Secure scheme prefix. -/
def litHttpsSlash : List Char := "https://".data

/-- Insecure scheme prefix. -/
def litHttpSlash : List Char := "http://".data

/-- Substring tested by the missing-alt classifier. -/
def litAltEq : List Char := "alt=".data

/-- Substring alt= followed by two double quotes. -/
def litAltEmptyD : List Char := litAltEq ++ [quoteD, quoteD]

/-- Substring alt= followed by two single quotes. -/
def litAltEmptyS : List Char := litAltEq ++ [quoteS, quoteS]

/-- Substring tested by the schema markup detector. -/
def litLdJson : List Char := "application/ld+json".data

/-- Second substring tested by the schema markup detector. -/
def litItemscope : List Char := "itemscope".data

/-- The digit class 1-6 of the heading patterns. -/
def isDigit16 (c : Char) : Bool := 49 ≤ c.toNat && c.toNat ≤ 54

/-- Closer of the heading pattern: a case-insensitive closing heading
tag of any level, five characters long. -/
def closerHeading : List Char → Option Nat
  | a :: b :: c :: d :: e :: _ =>
    if a == '<' && b == '/' && charCI 'h' c && isDigit16 d && e == '>' then some 5 else none
  | _ => none

/-- Closer of the title pattern: the case-insensitive closing title tag. -/
def closerTitle (l : List Char) : Option Nat :=
  if startsCI litTitleClose l then some 8 else none

/-- Closer of the captured attribute value: one quote-class character. -/
def closerQuote : List Char → Option Nat
  | c :: _ => if isQuote c then some 1 else none
  | [] => none

/-- Matcher at one position for the image tag pattern of analyzeImages
(line 50): a case-insensitive img opening followed by any non-closing
characters and the closing bracket.  Returns the match length. -/
def tryImgAt (l : List Char) : Option Nat := do
  let r1 ← eatCI litImg l
  let r2 ← gtRun r1
  pure (l.length - r2.length)

/-- Matcher at one position for the anchor pattern of analyzeLinks
(line 62): anchor opening, a backtracking non-closing gap, href=, a
quote, a non-quote run, a quote, then the rest of the tag. -/
def tryAnchorAt (l : List Char) : Option Nat := do
  let r1 ← eatCI litAOpen l
  let r2 ← gapGtTry (fun g => do
      let g1 ← eatCI litHrefEq g
      let g2 ← eatQuote g1
      let g3 ← quoteRun g2
      gtRun g3) r1
  pure (l.length - r2.length)

/-- Matcher at one position for the Open Graph meta pattern of
analyzeSocialTags (line 56). -/
def tryOgAt (l : List Char) : Option Nat := do
  let r1 ← eatCI litMetaOpen l
  let r2 ← gapGtTry (fun g => do
      let g1 ← eatCI litPropertyEq g
      let g2 ← eatQuote g1
      let g3 ← eatCI litOgColon g2
      let g4 ← quoteRun g3
      gtRun g4) r1
  pure (l.length - r2.length)

/-- Matcher at one position for the Twitter Card meta pattern of
analyzeSocialTags (line 57). -/
def tryTwitterAt (l : List Char) : Option Nat := do
  let r1 ← eatCI litMetaOpen l
  let r2 ← gapGtTry (fun g => do
      let g1 ← eatCI litNameEq g
      let g2 ← eatQuote g1
      let g3 ← eatCI litTwitterColon g2
      let g4 ← quoteRun g3
      gtRun g4) r1
  pure (l.length - r2.length)

/-- Matcher at one position for the canonical link pattern (line 196). -/
def tryCanonAt (l : List Char) : Option Unit := do
  let r1 ← eatCI litLinkOpen l
  let _ ← gapGtTry (fun g => do
      let g1 ← eatCI litRelEq g
      let g2 ← eatQuote g1
      let g3 ← eatCI litCanonical g2
      let g4 ← eatQuote g3
      gtRun g4) r1
  pure ()

/-- Matcher at one position for the heading pattern of
analyzeHeadingStructure (line 38): a case-insensitive heading opening
of level 1 to 6, the rest of the opening tag, a lazy
non-line-terminator content, and a case-insensitive closing heading tag
of any level.  Returns the match length. -/
def tryHeadingAt (l : List Char) : Option Nat := do
  let r1 ← eatCI litHOpen l
  match r1 with
  | [] => none
  | d :: r2 =>
    if isDigit16 d then do
      let r3 ← gtRun r2
      let pr ← lazyScanLen closerHeading r3
      pure (l.length - r3.length + pr.1 + pr.2)
    else none

/-- Matcher at one position for the title pattern (line 192), returning
the captured content. -/
def tryTitleAt (l : List Char) : Option (List Char) := do
  let r1 ← eatCI litTitleOpen l
  let pr ← lazyScanLen closerTitle r1
  pure (List.take pr.1 r1)

/-- Matcher at one position for the meta description pattern
(line 193), returning the captured content: meta opening, whitespace,
name=, quote, description, quote, whitespace, content=, quote, lazy
captured value, quote.  Note the pattern fixes the attribute order and
allows no whitespace around the equals signs. -/
def tryDescAt (l : List Char) : Option (List Char) := do
  let r1 ← eatCI litMetaOpen l
  let r2 ← eatWs1 r1
  let r3 ← eatCI litNameEq r2
  let r4 ← eatQuote r3
  let r5 ← eatCI litDescription r4
  let r6 ← eatQuote r5
  let r7 ← eatWs1 r6
  let r8 ← eatCI litContentEq r7
  let r9 ← eatQuote r8
  let pr ← lazyScanLen closerQuote r9
  pure (List.take pr.1 r9)

/-- Matcher at one position for the meta keywords pattern (line 194),
of the same shape as the description pattern. -/
def tryKeywordsAt (l : List Char) : Option (List Char) := do
  let r1 ← eatCI litMetaOpen l
  let r2 ← eatWs1 r1
  let r3 ← eatCI litNameEq r2
  let r4 ← eatQuote r3
  let r5 ← eatCI litKeywords r4
  let r6 ← eatQuote r5
  let r7 ← eatWs1 r6
  let r8 ← eatCI litContentEq r7
  let r9 ← eatQuote r8
  let pr ← lazyScanLen closerQuote r9
  pure (List.take pr.1 r9)

/-- Matcher at one position for the viewport pattern (line 195). -/
def tryViewportAt (l : List Char) : Option Unit := do
  let r1 ← eatCI litMetaOpen l
  let r2 ← eatWs1 r1
  let r3 ← eatCI litNameEq r2
  let r4 ← eatQuote r3
  let r5 ← eatCI litViewport r4
  let _ ← eatQuote r5
  pure ()

/-- Per-level heading tallies, mirroring the headingCounts object of
analyzeHeadingStructure (line 39). -/
structure HeadingCounts where
  h1 : Nat
  h2 : Nat
  h3 : Nat
  h4 : Nat
  h5 : Nat
  h6 : Nat
deriving DecidableEq, Repr

/-- Result of analyzeHeadingStructure (line 46): the raw matched
heading strings and the tallies. -/
structure HeadingAnalysis where
  headings : List (List Char)
  counts : HeadingCounts
deriving DecidableEq, Repr

/-- Result of analyzeImages (line 52). -/
structure ImageStats where
  total : Nat
  withoutAlt : Nat
deriving DecidableEq, Repr

/-- Result of analyzeSocialTags (line 58). -/
structure SocialStats where
  openGraph : Nat
  twitter : Nat
deriving DecidableEq, Repr

/-- Result of analyzeLinks (line 69). -/
structure LinkStats where
  total : Nat
  external : Nat
  internal : Nat
deriving DecidableEq, Repr

/-- The inner level-extraction pattern of analyzeHeadingStructure
(line 42) at one position: a literal lowercase heading opening.  This
pattern has no i flag in the source, so it is case-sensitive. -/
def innerLevelAt : List Char → Option Nat
  | '<' :: 'h' :: d :: _ => if isDigit16 d then some (d.toNat - 48) else none
  | _ => none

/-- First match of the inner level-extraction pattern over one matched
heading string. -/
def innerLevel (l : List Char) : Option Nat := firstCapture innerLevelAt l

/-- Increment the tally of one heading level. -/
def bumpLevel (hc : HeadingCounts) : Nat → HeadingCounts
  | 1 => { hc with h1 := hc.h1 + 1 }
  | 2 => { hc with h2 := hc.h2 + 1 }
  | 3 => { hc with h3 := hc.h3 + 1 }
  | 4 => { hc with h4 := hc.h4 + 1 }
  | 5 => { hc with h5 := hc.h5 + 1 }
  | _ => { hc with h6 := hc.h6 + 1 }

/-- analyzeHeadingStructure (lines 37-47): match all heading elements
case-insensitively, then tally each matched string by the level its
case-sensitive inner pattern extracts, skipping strings where that
inner pattern finds nothing. -/
def analyzeHeadingStructure (text : List Char) : HeadingAnalysis :=
  let headings := globalMatches tryHeadingAt text
  let counts := headings.foldl
    (fun hc h =>
      match innerLevel h with
      | some lv => bumpLevel hc lv
      | none => hc)
    { h1 := 0, h2 := 0, h3 := 0, h4 := 0, h5 := 0, h6 := 0 }
  { headings := headings, counts := counts }

/-- All image tag matches of analyzeImages (line 50). -/
def imgTags (text : List Char) : List (List Char) := globalMatches tryImgAt text

/-- The missing-alt classifier of analyzeImages (line 51): the matched
tag text does not contain the substring alt= at all, or contains alt=
followed by two double quotes or by two single quotes.  The substring
tests are case-sensitive. -/
def codeMissingAlt (img : List Char) : Bool :=
  !(containsSub litAltEq img) || containsSub litAltEmptyD img || containsSub litAltEmptyS img

/-- analyzeImages (lines 49-53). -/
def analyzeImages (text : List Char) : ImageStats :=
  let images := imgTags text
  let imagesWithoutAlt := images.filter codeMissingAlt
  { total := images.length, withoutAlt := imagesWithoutAlt.length }

/-- analyzeSocialTags (lines 55-59). -/
def analyzeSocialTags (text : List Char) : SocialStats :=
  { openGraph := (globalMatches tryOgAt text).length,
    twitter := (globalMatches tryTwitterAt text).length }

/-- analyzeLinks (lines 61-70).  The source reads the hostname of the
checking page from the global window.location; it is passed here as
the parameter windowHost. -/
def analyzeLinks (windowHost text : List Char) : LinkStats :=
  let allLinks := globalMatches tryAnchorAt text
  let externalLinks := allLinks.filter
    (fun link => containsSub litHttp link && !(containsSub windowHost link))
  let internalLinks := allLinks.filter
    (fun link => !(containsSub litHttp link) || containsSub windowHost link)
  { total := allLinks.length, external := externalLinks.length,
    internal := internalLinks.length }

/-- The pass condition of the Images Alt Text row (line 241): no image
matched, or no matched image classified missing-alt. -/
def imagesAltOk (text : List Char) : Bool :=
  (analyzeImages text).total == 0 || (analyzeImages text).withoutAlt == 0

/-- The pass condition of the H1 Tags row (line 227): the h1 tally is
exactly one. -/
def h1CheckOk (text : List Char) : Bool :=
  (analyzeHeadingStructure text).counts.h1 == 1

/-- Presence of a meta description match (line 193). -/
def descFound (text : List Char) : Bool :=
  (firstCapture tryDescAt text).isSome

/-- The schema markup detector (line 203): case-sensitive substring
presence of the JSON-LD media type or the microdata attribute. -/
def hasSchemaMarkup (text : List Char) : Bool :=
  containsSub litLdJson text || containsSub litItemscope text

/-- The scheme prefix test of the source (lines 28 and 167): the
case-insensitive anchored pattern http, optional s, colon and two
slashes, equivalent to a case-insensitive prefix of either scheme. -/
def jsHasHttpScheme (l : List Char) : Bool :=
  startsCI litHttpSlash l || startsCI litHttpsSlash l

/-- The fetch-path normalization (lines 166-169): the trimmed input is
prefixed with the secure scheme when it carries neither scheme. -/
def normalizeFetchUrl (s : String) : String :=
  if jsHasHttpScheme s.data then s else "https://" ++ s

/-- The display-path normalization inside extractHostname (lines
28-30): same test, but the insecure scheme is prepended. -/
def prependDefaultScheme (url : String) : String :=
  if jsHasHttpScheme url.data then url else "http://" ++ url

/-- Backslash character. -/
def backslashChar : Char := Char.ofNat 92

/-- Code points the WHATWG URL parser forbids inside a host, causing
the URL constructor to throw. -/
def isForbiddenHost (c : Char) : Bool :=
  c.toNat ≤ 32 || c == '#' || c == '/' || c == '<' || c == '>' ||
  c == '?' || c == '@' || c == '[' || c == ']' || c == '^' ||
  c == '|' || c == '%' || c == backslashChar

/-- The characters after the last at-sign, used to strip user
information from the authority. -/
def afterLastAt (l : List Char) : List Char :=
  (l.reverse.takeWhile (fun c => !(c == '@'))).reverse

/-- Validity of the text after the host: empty, or a colon followed by
decimal digits (possibly none). -/
def portOk (hostport : List Char) : Bool :=
  match hostport.dropWhile (fun c => !(c == ':')) with
  | [] => true
  | _ :: p => p.all (fun c => c.isDigit)

/-- Host extraction from the part following the scheme: the authority
runs to the first slash, question mark or hash; user information up to
the last at-sign is stripped; the host runs to the first colon; an
empty or forbidden-character host, or a malformed port, throws. -/
def parseAuthority (l : List Char) : Option String :=
  let auth := l.takeWhile (fun c => !(c == '/' || c == '?' || c == '#'))
  let hostport := afterLastAt auth
  let host := hostport.takeWhile (fun c => !(c == ':'))
  if host.isEmpty then none
  else if host.any isForbiddenHost then none
  else if !(portOk hostport) then none
  else some (String.mk (host.map Char.toLower))

/-- Model of the platform URL constructor as used by extractHostname:
the hostname of the parsed URL, or `none` when the constructor throws.
Only the http and https schemes produced by the caller are modelled;
anything else throws, as the constructor does for inputs without a
parsable scheme.  This is platform behaviour, not repository code, so
it is the one place the embedding models an external collaborator. -/
def jsURLHostname (s : String) : Option String :=
  let l := s.data
  if startsCI litHttpSlash l then parseAuthority (List.drop 7 l)
  else if startsCI litHttpsSlash l then parseAuthority (List.drop 8 l)
  else none

/-- extractHostname (lines 26-35): prepend the insecure scheme when no
scheme is present, construct a URL, return its hostname; the
surrounding try-catch turns any throw into the empty string. -/
def extractHostname (url : String) : String :=
  match jsURLHostname (prependDefaultScheme url) with
  | some h => h
  | none => ""

/-- The result list assembled in the success branch of handleCheck
(lines 205-295), in source order.  Inputs are the HTTPS flag of the
fetched URL, the robots probe outcome, the measured load time, the
fetched page text, and the hostname of the checking page used by the
link classifier. -/
def assembleResults (usesHttps robotsOk : Bool) (pageLoadTime : Nat)
    (text windowHost : List Char) : List SeoResult :=
  let titleMatch := firstCapture tryTitleAt text
  let descMatch := firstCapture tryDescAt text
  let keywordsMatch := firstCapture tryKeywordsAt text
  let viewportMatch := firstCapture tryViewportAt text
  let canonicalMatch := firstCapture tryCanonAt text
  let headingAnalysis := analyzeHeadingStructure text
  let imageAnalysis := analyzeImages text
  let socialAnalysis := analyzeSocialTags text
  let linkAnalysis := analyzeLinks windowHost text
  let schemaFlag := hasSchemaMarkup text
  [ { label := "HTTPS Usage", value := if usesHttps then "Ya" else "Tidak",
      ok := usesHttps, category := "Basic" },
    { label := "robots.txt Found",
      value := if robotsOk then "Ya" else "Mungkin (tidak dapat diverifikasi)",
      ok := robotsOk, category := "Basic" },
    { label := "Page Load Time",
      value := toString pageLoadTime ++ "ms " ++
        (if pageLoadTime < 3000 then "(Baik)"
         else if pageLoadTime < 5000 then "(Sedang)" else "(Lambat)"),
      ok := decide (pageLoadTime < 3000), category := "Performance" },
    { label := "Title Tag Present", value := if titleMatch.isSome then "Ya" else "Tidak",
      ok := titleMatch.isSome, category := "Meta Tags" },
    { label := "Meta Description Present", value := if descMatch.isSome then "Ya" else "Tidak",
      ok := descMatch.isSome, category := "Meta Tags" },
    { label := "Meta Keywords", value := if keywordsMatch.isSome then "Ya" else "Tidak",
      ok := keywordsMatch.isSome, category := "Meta Tags" },
    { label := "Viewport Meta Tag", value := if viewportMatch.isSome then "Ya" else "Tidak",
      ok := viewportMatch.isSome, category := "Meta Tags" },
    { label := "Canonical URL", value := if canonicalMatch.isSome then "Ya" else "Tidak",
      ok := canonicalMatch.isSome, category := "Meta Tags" },
    { label := "H1 Tags",
      value := toString headingAnalysis.counts.h1 ++ " tag" ++
        (if headingAnalysis.counts.h1 == 1 then " (Ideal)"
         else if headingAnalysis.counts.h1 == 0 then " (Tidak ada)"
         else " (Terlalu banyak)"),
      ok := headingAnalysis.counts.h1 == 1, category := "Content" },
    { label := "Heading Structure",
      value := "H1:" ++ toString headingAnalysis.counts.h1 ++
        " H2:" ++ toString headingAnalysis.counts.h2 ++
        " H3:" ++ toString headingAnalysis.counts.h3,
      ok := decide (headingAnalysis.counts.h1 > 0) && decide (headingAnalysis.counts.h2 > 0),
      category := "Content" },
    { label := "Images Alt Text",
      value := if imageAnalysis.total > 0 then
          toString (imageAnalysis.total - imageAnalysis.withoutAlt) ++ "/" ++
          toString imageAnalysis.total ++ " memiliki alt text"
        else "Tidak ada gambar",
      ok := imageAnalysis.total == 0 || imageAnalysis.withoutAlt == 0,
      category := "Images" },
    { label := "Open Graph Tags",
      value := if socialAnalysis.openGraph > 0 then
          toString socialAnalysis.openGraph ++ " tags" else "Tidak ada",
      ok := decide (socialAnalysis.openGraph > 0), category := "Social" },
    { label := "Twitter Cards",
      value := if socialAnalysis.twitter > 0 then
          toString socialAnalysis.twitter ++ " tags" else "Tidak ada",
      ok := decide (socialAnalysis.twitter > 0), category := "Social" },
    { label := "Schema Markup", value := if schemaFlag then "Ya" else "Tidak",
      ok := schemaFlag, category := "Technical" },
    { label := "Internal Links", value := toString linkAnalysis.internal ++ " links",
      ok := decide (linkAnalysis.internal > 0), category := "Links" },
    { label := "External Links", value := toString linkAnalysis.external ++ " links",
      ok := true, category := "Links" },
    { label := "Page Title",
      value := match titleMatch with
        | some t => String.mk t
        | none => "missing",
      ok := titleMatch.isSome, category := "Details" },
    { label := "Meta Description",
      value := match descMatch with
        | some t => String.mk t
        | none => "missing",
      ok := descMatch.isSome, category := "Details" } ]

/-- The triple returned by getDummyData (line 72). -/
structure DummyData where
  results : List SeoResult
  score : SeoScore
  loadTime : Nat
deriving Repr

/-- getDummyData (lines 72-129): the fixed, fully passing preview
report.  The hostname argument appears only in the value text of the
Page Title row of category Details. -/
def getDummyData (hostname : String) : DummyData :=
  { results :=
    [ { label := "HTTPS Usage", value := "Ya", ok := true, category := "Basic" },
      { label := "robots.txt Found", value := "Ya", ok := true, category := "Basic" },
      { label := "Page Load Time", value := "1.2s (Sangat Baik)", ok := true,
        category := "Performance" },
      { label := "Title Tag Present", value := "Ya", ok := true, category := "Meta Tags" },
      { label := "Meta Description Present", value := "Ya", ok := true, category := "Meta Tags" },
      { label := "Meta Keywords", value := "Ya", ok := true, category := "Meta Tags" },
      { label := "Viewport Meta Tag", value := "Ya", ok := true, category := "Meta Tags" },
      { label := "Canonical URL", value := "Ya", ok := true, category := "Meta Tags" },
      { label := "H1 Tags", value := "1 tag (Ideal)", ok := true, category := "Content" },
      { label := "Heading Structure", value := "H1:1 H2:4 H3:8", ok := true,
        category := "Content" },
      { label := "Images Alt Text", value := "12/12 memiliki alt text", ok := true,
        category := "Images" },
      { label := "Open Graph Tags", value := "8 tags", ok := true, category := "Social" },
      { label := "Twitter Cards", value := "5 tags", ok := true, category := "Social" },
      { label := "Schema Markup", value := "Ya", ok := true, category := "Technical" },
      { label := "Internal Links", value := "23 links", ok := true, category := "Links" },
      { label := "External Links", value := "7 links", ok := true, category := "Links" },
      { label := "Page Title",
        value := hostname ++ " - Platform SEO Terbaik untuk Analisis Website Professional",
        ok := true, category := "Details" },
      { label := "Meta Description",
        value := "Analisis SEO lengkap untuk website Anda. Periksa meta tags, struktur heading, optimasi gambar, dan 15+ faktor SEO penting lainnya untuk meningkatkan ranking di Google.",
        ok := true, category := "Details" } ],
    score := { score := 16, total := 16, percentage := some 100 },
    loadTime := 1200 }

/-- Outcome of the main-page fetch together with the body text read
from it: either both succeed with a measured elapsed time, or the
await throws. -/
inductive FetchOutcome where
  | ok (body : String) (elapsedMs : Nat)
  | err
deriving DecidableEq

/-- The user-facing notifications handleCheck can raise. -/
inductive ToastKind where
  | emptyUrl
  | analysisDone
  | networkError
deriving DecidableEq, Repr

/-- Observable outcome of one handleCheck run: the three pieces of
state it may set and the notifications it raises, in order. -/
structure EngineOutput where
  results : Option (List SeoResult)
  seoScore : Option SeoScore
  loadTime : Option Nat
  toasts : List ToastKind
deriving Repr

/-- handleCheck (lines 154-317) with its collaborators made explicit:
the state is cleared, an empty trimmed URL raises one error toast and
stops; otherwise the input is normalized and fetched; a fetch failure
is caught and raises exactly one failure toast, leaving all state
cleared; on success the report is assembled from the body, scored, and
one completion toast raised.  The robots probe outcome and the hostname
of the checking page are inputs of the success branch. -/
def handleCheck (url : String) (pageFetch : FetchOutcome) (robotsOk : Bool)
    (windowHost : String) : EngineOutput :=
  let trimmed := jsTrim url.data
  if trimmed.isEmpty then
    { results := none, seoScore := none, loadTime := none, toasts := [ToastKind.emptyUrl] }
  else
    let inputUrl := normalizeFetchUrl (String.mk trimmed)
    match pageFetch with
    | FetchOutcome.err =>
      { results := none, seoScore := none, loadTime := none,
        toasts := [ToastKind.networkError] }
    | FetchOutcome.ok body ms =>
      let rs := assembleResults (List.isPrefixOf litHttpsSlash inputUrl.data)
        robotsOk ms body.data windowHost.data
      { results := some rs, seoScore := some (computeScore rs), loadTime := some ms,
        toasts := [ToastKind.analysisDone] }

/-- Literal attribute name alt. -/
def litAlt : List Char := "alt".data

/-- Characters strictly before the first occurrence of the given
character. -/
def takeUntilChar (q : Char) (l : List Char) : List Char :=
  l.takeWhile (fun c => !(c == q))

/-- Modelled from the spec: the value of an alt attribute inside a tag,
read at a position directly after whitespace.  The spec classifies a
tag as missing alt when it "has no alt attribute at all, or the
attribute value is empty"; this reads the attribute the way an HTML
attribute is written: the name alt (case-insensitively, as the spec
requires of all matching), an optional equals sign surrounded by
optional whitespace, and a quoted or unquoted value; a valueless
attribute has the empty value. -/
def specAltAt (l : List Char) : Option (List Char) :=
  match eatCI litAlt l with
  | none => none
  | some r =>
    match r with
    | [] => some []
    | c :: _ =>
      if c == '=' || isWs c || c == '>' then
        match List.drop (countWs r) r with
        | '=' :: r3 =>
          match List.drop (countWs r3) r3 with
          | q :: r5 =>
            if isQuote q then some (takeUntilChar q r5)
            else some ((q :: r5).takeWhile (fun c2 => !(isWs c2 || c2 == '>')))
          | [] => some []
        | _ => some []
      else none

/-- Modelled from the spec: the value of the first alt attribute of the
tag, scanning for an attribute boundary, or `none` when the tag has no
alt attribute at all. -/
def specFindAltVal : List Char → Option (List Char)
  | [] => none
  | c :: cs =>
    if isWs c then
      match specAltAt cs with
      | some v => some v
      | none => specFindAltVal cs
    else specFindAltVal cs

/-- Modelled from the spec: an image tag is classified missing-alt
exactly when it has no alt attribute at all or its alt attribute value
is empty. -/
def specAltMissing (tag : List Char) : Bool :=
  match specFindAltVal tag with
  | none => true
  | some v => v.isEmpty

/-- A description meta tag in the attribute order the detector expects. -/
def htmlDescNormal : String := "<meta name=\"description\" content=\"a\">"

/-- The same tag with the attributes in the other order. -/
def htmlDescReversed : String := "<meta content=\"a\" name=\"description\">"

/-- The same tag with whitespace around the first equals sign. -/
def htmlDescSpaced : String := "<meta name = \"description\" content=\"a\">"

/-- The expected-order tag in upper case. -/
def htmlDescUpper : String := "<META NAME=\"DESCRIPTION\" CONTENT=\"a\">"

/-- The expected-order tag with single-quoted attribute values. -/
def htmlDescSingleQ : String := "<meta name=\x27description\x27 content=\x27a\x27>"

/-- The expected-order tag with whitespace after the first equals sign. -/
def htmlDescSpacedAfter : String := "<meta name= \"description\" content=\"a\">"

/-- An image tag whose alt attribute is written in upper case with a
non-empty value. -/
def htmlImgUpperAlt : String := "<img ALT=\"x\">"

/-- A page with exactly one heading, written in upper case. -/
def htmlH1Upper : String := "<H1>Hello</H1>"

/-- A page with exactly one heading, written in lower case. -/
def htmlH1Lower : String := "<h1>Hello</h1>"

/-- A URL string without a scheme. -/
def urlExample : String := "example.com"

/-- A URL string whose host contains a space, which the URL constructor
rejects. -/
def urlBadHost : String := "exa mple.com"

/-- Hostname of the checking page used in concrete runs. -/
def hostWitness : String := "localhost"

/-- C2 counterexample: the Meta Description detector matches the tag in
its expected attribute order, but fails to match the same description
meta tag with the attributes reversed, and fails when whitespace
surrounds the equals sign, contradicting the claim that matches succeed
regardless of attribute order and optional whitespace around the
equals sign. -/
theorem desc_detector_rejects_reordered_attributes :
    descFound (htmlDescNormal.data) = true
    ∧ descFound (htmlDescReversed.data) = false
    ∧ descFound (htmlDescSpaced.data) = false := by
  decide

/-- C2 (amended): the Meta Description detector is case-insensitive and
accepts either quote style, but it requires the name attribute before
the content attribute with no whitespace around the equals signs:
whitespace after the equals sign defeats the match. -/
theorem desc_detector_case_insensitive_fixed_order :
    descFound (htmlDescUpper.data) = true
    ∧ descFound (htmlDescSingleQ.data) = true
    ∧ descFound (htmlDescSpacedAfter.data) = false := by
  decide

/-- C3 counterexample: the tag with an upper-case ALT attribute and a
non-empty value has an alt attribute (the spec-modelled classifier
returns false for missing-alt), yet the check fails on a page whose
only image it is, because the missing-alt classifier of the code is a
case-sensitive substring test. -/
theorem images_alt_check_fails_on_uppercase_alt :
    imgTags (htmlImgUpperAlt.data) = [htmlImgUpperAlt.data]
    ∧ specAltMissing (htmlImgUpperAlt.data) = false
    ∧ imagesAltOk (htmlImgUpperAlt.data) = false := by
  decide

/-- C3 (amended): for every HTML text, the Images Alt Text check passes
if and only if no image tag is matched, or no matched tag is classified
missing-alt, where a tag is classified missing-alt exactly when its
text does not contain the substring alt= at all, or contains alt=
followed by an empty pair of double or single quotes (all case
sensitive substring tests). -/
theorem images_alt_check_characterization (text : List Char) :
    imagesAltOk text = true ↔
      ((analyzeImages text).total = 0 ∨ ∀ tag ∈ imgTags text, codeMissingAlt tag = false) := by
  simp [imagesAltOk, analyzeImages, List.length_eq_zero, List.filter_eq_nil_iff,
    Bool.not_eq_true]

/-- C4: the code contradicts the claimed case-insensitive counting.  On
a page whose only heading is an upper-case h1 element, the heading
pattern matches it (one heading string is collected) but the inner
level-extraction pattern, written without the i flag, extracts no
level, so the h1 tally stays 0 and the H1 Tags check fails; the same
page in lower case is tallied and passes. -/
theorem h1_count_misses_uppercase_heading :
    (analyzeHeadingStructure (htmlH1Upper.data)).headings.length = 1
    ∧ (analyzeHeadingStructure (htmlH1Upper.data)).counts.h1 = 0
    ∧ h1CheckOk (htmlH1Upper.data) = false
    ∧ (analyzeHeadingStructure (htmlH1Lower.data)).counts.h1 = 1
    ∧ h1CheckOk (htmlH1Lower.data) = true := by
  decide

/-- C5: when the trimmed URL is nonempty and the fetch of the main page
fails, handleCheck produces no report: the result list, the score and
the load time all stay cleared, and exactly one user-facing failure
notification is raised. -/
theorem fetch_failure_produces_no_report (url : String) (f : FetchOutcome)
    (robotsOk : Bool) (windowHost : String)
    (hne : jsTrim url.data ≠ []) (herr : f = FetchOutcome.err) :
    (handleCheck url f robotsOk windowHost).results = none
    ∧ (handleCheck url f robotsOk windowHost).seoScore = none
    ∧ (handleCheck url f robotsOk windowHost).loadTime = none
    ∧ (handleCheck url f robotsOk windowHost).toasts = [ToastKind.networkError] := by
  subst herr
  have hemp : (jsTrim url.data).isEmpty = false := by
    cases h : jsTrim url.data with
    | nil => exact absurd h hne
    | cons a t => rfl
  simp [handleCheck, hemp]

/-- Witness for the C5 theorem at a concrete run. -/
theorem fetch_failure_produces_no_report_witness :
    (handleCheck urlExample FetchOutcome.err true hostWitness).results = none
    ∧ (handleCheck urlExample FetchOutcome.err true hostWitness).seoScore = none
    ∧ (handleCheck urlExample FetchOutcome.err true hostWitness).loadTime = none
    ∧ (handleCheck urlExample FetchOutcome.err true hostWitness).toasts
        = [ToastKind.networkError] :=
  fetch_failure_produces_no_report urlExample FetchOutcome.err true hostWitness
    (by decide) rfl

/-- Strip the value of a Details row, leaving everything else. -/
def stripDetailsValue (r : SeoResult) : SeoResult :=
  if r.category == "Details" then { r with value := "" } else r

/-- C6: the preview provider returns a fixed report with 16 non-Details
rows that all pass, the score record 16 of 16 at 100 percent, and the
fixed load time 1200; and the hostname hint influences only the value
text of Details rows, so after blanking those values the report is the
same for every hostname.  The provider is a pure function of its
argument, so it performs no network access by construction. -/
theorem preview_report_fixed (hostname : String) :
    ((getDummyData hostname).results.filter (fun r => r.category != "Details")).length = 16
    ∧ ((getDummyData hostname).results.filter
        (fun r => r.category != "Details")).all (fun r => r.ok) = true
    ∧ (getDummyData hostname).score = { score := 16, total := 16, percentage := some 100 }
    ∧ (getDummyData hostname).loadTime = 1200
    ∧ ∀ h2 : String, (getDummyData hostname).results.map stripDetailsValue
        = (getDummyData h2).results.map stripDetailsValue :=
  ⟨rfl, rfl, rfl, rfl, fun _ => rfl⟩

/-- C7: the fetch-path normalization prepends the secure scheme to a
trimmed input lacking a case-insensitive http or https prefix, and
passes an input already carrying such a prefix through unchanged. -/
theorem normalize_adds_secure_scheme (s : String) :
    (jsHasHttpScheme s.data = false → normalizeFetchUrl s = "https://" ++ s)
    ∧ (jsHasHttpScheme s.data = true → normalizeFetchUrl s = s) := by
  constructor <;> intro h <;> simp [normalizeFetchUrl, h]

/-- Witness for the C7 theorem: the schemeless input example.com is
given the secure scheme. -/
theorem normalize_adds_secure_scheme_witness :
    jsHasHttpScheme (urlExample.data) = false
    ∧ normalizeFetchUrl urlExample = "https://" ++ urlExample :=
  ⟨by decide, (normalize_adds_secure_scheme urlExample).1 (by decide)⟩

/-- C8: hostname extraction is total: for every input string it returns
the host component when the input, after the default scheme is
prepended if no http or https prefix is present, parses as a URL, and
the empty string when parsing throws; concretely, example.com yields
the host example.com and a host containing a space yields the empty
string. -/
theorem extract_hostname_never_throws :
    (∀ s : String,
      (jsURLHostname (prependDefaultScheme s) = none ∧ extractHostname s = "")
      ∨ (∃ h, jsURLHostname (prependDefaultScheme s) = some h ∧ extractHostname s = h))
    ∧ extractHostname urlExample = "example.com"
    ∧ extractHostname urlBadHost = "" := by
  refine ⟨fun s => ?_, by decide, by decide⟩
  cases heq : jsURLHostname (prependDefaultScheme s) with
  | none => exact Or.inl ⟨rfl, by simp [extractHostname, heq]⟩
  | some h => exact Or.inr ⟨h, rfl, by simp [extractHostname, heq]⟩

/-- The category of each of the 18 assembled rows, in source order. -/
def categoryOrder : List String :=
  [ "Basic", "Basic", "Performance", "Meta Tags", "Meta Tags", "Meta Tags", "Meta Tags",
    "Meta Tags", "Content", "Content", "Images", "Social", "Social", "Technical",
    "Links", "Links", "Details", "Details" ]

/-- C9: every assembled result list, live or preview, lists its rows
grouped in the fixed deterministic category order Basic, Performance,
Meta Tags, Content, Images, Social, Technical, Links, Details, as the
deduplicated category sequence shows. -/
theorem results_in_fixed_category_order :
    (∀ (usesHttps robotsOk : Bool) (ms : Nat) (text windowHost : List Char),
      (assembleResults usesHttps robotsOk ms text windowHost).map (fun r => r.category)
        = categoryOrder)
    ∧ (∀ hostname : String,
      (getDummyData hostname).results.map (fun r => r.category) = categoryOrder)
    ∧ categoryOrder.dedup
        = [ "Basic", "Performance", "Meta Tags", "Content", "Images", "Social",
            "Technical", "Links", "Details" ] :=
  ⟨fun _ _ _ _ _ => rfl, fun _ => rfl, by decide⟩

/-- Sum of the lengths of the filters of a predicate and its negation. -/
theorem length_filter_not_add {α : Type} (p : α → Bool) (l : List α) :
    (l.filter (fun x => !(p x))).length + (l.filter p).length = l.length := by
  induction l with
  | nil => rfl
  | cons a t ih => cases h : p a <;> simp [List.filter_cons, h] <;> omega

/-- C10: the two filter predicates of the link analyzer are logical
complements, so for every checking-page hostname and every HTML text
the internal count plus the external count equals the total count. -/
theorem links_internal_external_partition (windowHost text : List Char) :
    (analyzeLinks windowHost text).internal + (analyzeLinks windowHost text).external
      = (analyzeLinks windowHost text).total := by
  simp only [analyzeLinks]
  have hpred : ∀ x ∈ globalMatches tryAnchorAt text,
      (!(containsSub litHttp x) || containsSub windowHost x)
        = !(containsSub litHttp x && !(containsSub windowHost x)) := by
    intro x _
    cases containsSub litHttp x <;> cases containsSub windowHost x <;> rfl
  rw [List.filter_congr hpred]
  exact length_filter_not_add _ _
